import Mathlib

/-!
Verification of the session state machine of a speech transcription and
translation web application (source: src/app.py).

The application is a thin orchestration layer over three external engines
(speech recognition, machine translation, speech synthesis).  We embed the
session store, the three transitions (transcribe, retranslate, speak) and the
language-code normalizer as pure Lean functions.  The external engines are
parameters of type String to Except, so every theorem quantifies over all
possible engine behaviours; the file system is a write log of path/content
pairs (the code only ever creates or overwrites files).
-/

namespace WhisperApp

/-- File system modelled as a log of writes; lookup returns the most recent
write to a path, as the code only creates or overwrites whole files. -/
abbrev FS := List (String × String)

def fileLookup (fs : FS) (p : String) : Option String :=
  (fs.find? (fun e => e.1 == p)).map (fun e => e.2)

def writeFile (fs : FS) (p c : String) : FS := (p, c) :: fs

/-- Characters removed by the Python str.strip method (ASCII whitespace; the
texts handled by the app only ever contain these). -/
def isSpaceChar (c : Char) : Bool :=
  c == ' ' || c == '\t' || c == '\n' || c == '\r'

def trimChars (cs : List Char) : List Char :=
  ((cs.dropWhile isSpaceChar).reverse.dropWhile isSpaceChar).reverse

/-- Python str.strip with no argument: drop surrounding whitespace. -/
def py_strip (s : String) : String := String.mk (trimChars s.data)

def lowerChar (c : Char) : Char :=
  if 'A' ≤ c ∧ c ≤ 'Z' then Char.ofNat (c.toNat + 32) else c

/-- Python str.lower restricted to ASCII (the only codes that occur). -/
def py_lower (s : String) : String := String.mk (s.data.map lowerChar)

/-- Python str.startswith. -/
def py_startswith (s p : String) : Bool := p.data.isPrefixOf s.data

/-- os.path.basename on POSIX: the part after the last slash. -/
def os_basename (p : String) : String :=
  String.mk (p.data.foldl (fun acc c => if c == '/' then [] else acc ++ [c]) [])

/-- The root of os.path.splitext: everything before the last dot, except that
a run of leading dots never starts an extension (CPython rule). -/
def splitext_root (b : String) : String :=
  let r := b.data.reverse
  match r.dropWhile (fun c => c != '.') with
  | [] => b
  | _ :: before =>
    if before.any (fun c => c != '.') then String.mk before.reverse else b

def temp_upload_folder : String := "TempUploads"
def results_folder : String := "Results"

/-- os.path.join for a relative second component. -/
def os_path_join (a b : String) : String := a ++ "/" ++ b

/-- The LANG_OPTIONS dictionary queried with dict.get: the label "None" is
bound to Python None, and an unknown label also yields None, so both map to
Option.none. -/
def LANG_OPTIONS : String → Option String
  | "Spanish" => some "es"
  | "French" => some "fr"
  | "German" => some "de"
  | "Turkish" => some "tr"
  | "Japanese" => some "ja"
  | "Chinese (Simplified)" => some "zh-cn"
  | "Chinese (Traditional)" => some "zh-tw"
  | "Polish" => some "pl"
  | "Italian" => some "it"
  | "Portuguese" => some "pt"
  | "Russian" => some "ru"
  | "Korean" => some "ko"
  | "Arabic" => some "ar"
  | "Dutch" => some "nl"
  | "Greek" => some "el"
  | "Hindi" => some "hi"
  | _ => none

/-- The st.session_state keys the application reads and writes. -/
structure SessionState where
  last_transcription : String
  last_translation : String
  last_language_label : String
  last_output_folder : String
  has_results : Bool
  translation_error : String
  last_language_code : Option String
  transcription_area : String
  translation_area : String
deriving Repr, DecidableEq

/-- The initial values installed on first run (lines 60-77 of app.py). -/
def initState : SessionState :=
  { last_transcription := ""
    last_translation := ""
    last_language_label := ""
    last_output_folder := ""
    has_results := false
    translation_error := ""
    last_language_code := none
    transcription_area := ""
    translation_area := "" }

/-- create_output_folder: Results/<stem of basename>_<timestamp>; the
timestamp comes from the clock and is passed in as an argument. -/
def create_output_folder (audio_file_name timestamp : String) : String :=
  let folder_name := splitext_root (os_basename audio_file_name)
  os_path_join results_folder (folder_name ++ "_" ++ timestamp)

/-- save_translation: write <output_folder>/Translations/<label>_translation.txt. -/
def save_translation (fs : FS) (output_folder language_label translation_text : String) : FS :=
  let translations_folder := os_path_join output_folder "Translations"
  let translation_file :=
    os_path_join translations_folder (language_label ++ "_translation.txt")
  writeFile fs translation_file translation_text

/-- tts_lang_from_googletrans_code: map a googletrans code to a gTTS code.
Python "if not code" is true for both None and the empty string. -/
def tts_lang_from_googletrans_code (code : Option String) : String :=
  match code with
  | none => "en"
  | some code =>
    if code = "" then "en"
    else
      let c := py_lower code
      if c = "zh-cn" ∨ c = "zh-tw" then "zh"
      else if py_startswith c "pt-" then "pt"
      else if py_startswith c "en-" then "en"
      else if py_startswith c "es-" then "es"
      else if py_startswith c "fr-" then "fr"
      else if py_startswith c "de-" then "de"
      else c

/-- What speak_text renders: a warning, an error message, or an audio player. -/
inductive SpeakOutcome where
  | warn (msg : String)
  | errorMsg (msg : String)
  | audio (bytes : List Nat)
deriving Repr, DecidableEq

/-- speak_text: the synthesis engine (gTTS constructor plus write_to_fp) is a
parameter returning the produced bytes or the raised exception text.  The
source function never reads or writes st.session_state; the state is threaded
through to make that explicit. -/
def speak_text (tts : String → String → Except String (List Nat))
    (s : SessionState) (text tts_lang label : String) : SessionState × SpeakOutcome :=
  if text = "" ∨ py_strip text = "" then
    (s, .warn ("No " ++ label ++ " text to read."))
  else
    match tts (py_strip text) tts_lang with
    | .error e => (s, .errorMsg ("Text-to-speech failed (" ++ label ++ "): " ++ e))
    | .ok audio_bytes =>
      if audio_bytes = [] then
        (s, .errorMsg "TTS produced empty audio. This usually means the gTTS request failed.")
      else (s, .audio audio_bytes)

/-- The folder expression of line 240: st.session_state.last_output_folder or
results_folder (Python or takes the right operand when the left is empty). -/
def retranslate_output_folder (s : SessionState) : String :=
  if s.last_output_folder = "" then results_folder else s.last_output_folder

/-- retranslate_from_state: the on_change callback of the language selector.
The translation engine is a parameter from (text, dest code) to the result
text or the raised exception text. -/
def retranslate_from_state (translate : String → String → Except String String)
    (fs : FS) (s : SessionState) (target_language_label : String) : FS × SessionState :=
  let s := { s with translation_error := "" }
  let label := target_language_label
  let code := LANG_OPTIONS label
  if s.has_results = false ∨ py_strip s.last_transcription = "" then
    (fs, { s with last_translation := "", last_language_label := "" })
  else
    match code with
    | none =>
      (fs, { s with last_translation := "", last_language_label := "",
                    translation_area := "" })
    | some code =>
      let transcription_text := py_strip s.last_transcription
      match translate transcription_text code with
      | .ok t =>
        let translation_text := py_strip t
        let output_folder := retranslate_output_folder s
        let fs := save_translation fs output_folder label translation_text
        (fs, { s with last_translation := translation_text,
                      last_language_label := label,
                      last_language_code := some code,
                      translation_area := translation_text })
      | .error e =>
        (fs, { s with last_translation := "", last_language_label := "",
                      translation_error := e,
                      translation_area := "" })

structure UploadedFile where
  name : String
  content : String
deriving Repr, DecidableEq

/-- The result of one run of the Transcribe button block: the file system,
the session state and the st.error messages shown. -/
structure HandlerResult where
  fs : FS
  state : SessionState
  errors : List String
deriving Repr, DecidableEq

/-- Lines 289-299: the state immediately after a successful engine call, once
the results are persisted and the translation fields are reset, before the
chained translation of line 302 runs. -/
def transcribe_success_reset (s : SessionState)
    (transcription_text output_folder : String) : SessionState :=
  { s with last_transcription := transcription_text
           transcription_area := transcription_text
           last_output_folder := output_folder
           has_results := true
           last_translation := ""
           last_language_label := ""
           translation_error := ""
           translation_area := "" }

/-- The Transcribe button block (lines 267-312).  The recognition engine is a
parameter from (model size, path) to the text field of the result dict (absent
when the dict has no text entry) or the raised exception text; result.get
composed with Python or of the empty string is Option.getD. -/
def transcribe_button_handler
    (whisper : String → String → Except String (Option String))
    (translate : String → String → Except String String)
    (fs : FS) (s : SessionState)
    (uploaded_file : Option UploadedFile)
    (model_size target_language_label timestamp : String) : HandlerResult :=
  match uploaded_file with
  | none => { fs := fs, state := s, errors := ["Please upload an audio file."] }
  | some file =>
    let temp_file_path := os_path_join temp_upload_folder file.name
    let fs := writeFile fs temp_file_path file.content
    let output_folder := create_output_folder file.name timestamp
    match whisper model_size temp_file_path with
    | .error e => { fs := fs, state := s, errors := ["An error occurred: " ++ e] }
    | .ok r =>
      let transcription_text := py_strip (r.getD "")
      let fs := writeFile fs (os_path_join output_folder "transcription.txt") transcription_text
      let s := transcribe_success_reset s transcription_text output_folder
      match LANG_OPTIONS target_language_label with
      | none => { fs := fs, state := s, errors := [] }
      | some code =>
        if transcription_text = "" then { fs := fs, state := s, errors := [] }
        else
          match translate transcription_text code with
          | .error e =>
            { fs := fs, state := s, errors := ["An error occurred: " ++ e] }
          | .ok t =>
            let translation_text := py_strip t
            let fs := save_translation fs output_folder target_language_label translation_text
            { fs := fs
              state := { s with last_translation := translation_text
                                last_language_label := target_language_label
                                last_language_code := some code
                                translation_area := translation_text }
              errors := [] }

/-- Lines 318-369 of the rerun: the widget areas are synced from the stored
results when they are displayed. -/
def render_sync (s : SessionState) : SessionState :=
  if s.has_results then
    let s1 := { s with transcription_area := s.last_transcription }
    if s1.last_translation = "" then s1
    else { s1 with translation_area := s1.last_translation }
  else s

/-- The session states reachable from a fresh session by any sequence of user
events, for arbitrary engine behaviours, inputs and timestamps. -/
inductive Reachable : SessionState → Prop where
  | init : Reachable initState
  | transcribe (w : String → String → Except String (Option String))
      (t : String → String → Except String String)
      (fs : FS) (s : SessionState) (u : Option UploadedFile) (ms lbl ts : String) :
      Reachable s → Reachable (transcribe_button_handler w t fs s u ms lbl ts).state
  | retranslate (t : String → String → Except String String)
      (fs : FS) (s : SessionState) (lbl : String) :
      Reachable s → Reachable (retranslate_from_state t fs s lbl).2
  | render (s : SessionState) : Reachable s → Reachable (render_sync s)
  | speak (tts : String → String → Except String (List Nat))
      (s : SessionState) (text lang lbl : String) :
      Reachable s → Reachable (speak_text tts s text lang lbl).1

/-! Helper lemmas about the file-system log. -/

theorem lookup_write_self (fs : FS) (p c : String) :
    fileLookup (writeFile fs p c) p = some c := by
  simp [fileLookup, writeFile, List.find?]

theorem lookup_write_ne (fs : FS) (p c q : String) (h : p ≠ q) :
    fileLookup (writeFile fs p c) q = fileLookup fs q := by
  have hb : (p == q) = false := beq_eq_false_iff_ne.mpr h
  simp [fileLookup, writeFile, List.find?, hb]

/-! Helper lemmas about the paths the transitions write to: every path under
the temporary upload folder starts with the letter T, every path under the
results folder starts with the letter R, so the two families never collide. -/

theorem temp_path_head (n : String) :
    ∃ l, (os_path_join temp_upload_folder n).data = 'T' :: l := by
  refine ⟨"empUploads".data ++ ['/'] ++ n.data, ?_⟩
  show (temp_upload_folder ++ "/" ++ n).data = _
  rw [String.data_append, String.data_append,
    show temp_upload_folder.data = 'T' :: "empUploads".data from rfl]
  simp

theorem create_output_folder_head (x ts : String) :
    ∃ l, (create_output_folder x ts).data = 'R' :: l := by
  refine ⟨"esults".data ++ ['/'] ++ (splitext_root (os_basename x) ++ "_" ++ ts).data, ?_⟩
  show (results_folder ++ "/" ++ (splitext_root (os_basename x) ++ "_" ++ ts)).data = _
  rw [String.data_append, String.data_append,
    show results_folder.data = 'R' :: "esults".data from rfl]
  simp

theorem join_head (a b : String) (c : Char) (l : List Char) (h : a.data = c :: l) :
    ∃ m, (os_path_join a b).data = c :: m := by
  refine ⟨l ++ ['/'] ++ b.data, ?_⟩
  show (a ++ "/" ++ b).data = _
  rw [String.data_append, String.data_append, h]
  simp

theorem ne_of_data_head {p q : String} {c d : Char} {l m : List Char}
    (hp : p.data = c :: l) (hq : q.data = d :: m) (hcd : c ≠ d) : p ≠ q := by
  intro h
  subst h
  rw [hp] at hq
  exact hcd (List.cons.injEq .. ▸ hq).1

theorem ne_empty_of_head {p : String} {c : Char} {l : List Char}
    (hp : p.data = c :: l) : p ≠ "" := by
  intro h
  subst h
  simp at hp

theorem create_output_folder_ne_empty (x ts : String) :
    create_output_folder x ts ≠ "" := by
  obtain ⟨l, hl⟩ := create_output_folder_head x ts
  exact ne_empty_of_head hl

/-! Branch equations of the Transcribe button handler: one per exit path. -/

theorem handler_eq_no_file (w t fs s ms lbl ts) :
    transcribe_button_handler w t fs s none ms lbl ts =
      ⟨fs, s, ["Please upload an audio file."]⟩ := rfl

theorem handler_eq_werr (w t fs s file ms lbl ts e)
    (hw : w ms (os_path_join temp_upload_folder file.name) = Except.error e) :
    transcribe_button_handler w t fs s (some file) ms lbl ts =
      ⟨writeFile fs (os_path_join temp_upload_folder file.name) file.content, s,
        ["An error occurred: " ++ e]⟩ := by
  simp only [transcribe_button_handler, hw]

theorem handler_eq_ok_none (w t fs s file ms lbl ts r)
    (hw : w ms (os_path_join temp_upload_folder file.name) = Except.ok r)
    (hl : LANG_OPTIONS lbl = none) :
    transcribe_button_handler w t fs s (some file) ms lbl ts =
      ⟨writeFile (writeFile fs (os_path_join temp_upload_folder file.name) file.content)
          (os_path_join (create_output_folder file.name ts) "transcription.txt")
          (py_strip (r.getD "")),
        transcribe_success_reset s (py_strip (r.getD "")) (create_output_folder file.name ts),
        []⟩ := by
  simp only [transcribe_button_handler, hw, hl]

theorem handler_eq_ok_empty (w t fs s file ms lbl ts r code)
    (hw : w ms (os_path_join temp_upload_folder file.name) = Except.ok r)
    (hl : LANG_OPTIONS lbl = some code)
    (htext : py_strip (r.getD "") = "") :
    transcribe_button_handler w t fs s (some file) ms lbl ts =
      ⟨writeFile (writeFile fs (os_path_join temp_upload_folder file.name) file.content)
          (os_path_join (create_output_folder file.name ts) "transcription.txt")
          (py_strip (r.getD "")),
        transcribe_success_reset s (py_strip (r.getD "")) (create_output_folder file.name ts),
        []⟩ := by
  simp only [transcribe_button_handler, hw, hl, htext, if_true, if_pos]

theorem handler_eq_terr (w t fs s file ms lbl ts r code e)
    (hw : w ms (os_path_join temp_upload_folder file.name) = Except.ok r)
    (hl : LANG_OPTIONS lbl = some code)
    (htext : py_strip (r.getD "") ≠ "")
    (ht : t (py_strip (r.getD "")) code = Except.error e) :
    transcribe_button_handler w t fs s (some file) ms lbl ts =
      ⟨writeFile (writeFile fs (os_path_join temp_upload_folder file.name) file.content)
          (os_path_join (create_output_folder file.name ts) "transcription.txt")
          (py_strip (r.getD "")),
        transcribe_success_reset s (py_strip (r.getD "")) (create_output_folder file.name ts),
        ["An error occurred: " ++ e]⟩ := by
  simp only [transcribe_button_handler, hw, hl, htext, ht, if_neg, if_false]

theorem handler_eq_tok (w t fs s file ms lbl ts r code tr)
    (hw : w ms (os_path_join temp_upload_folder file.name) = Except.ok r)
    (hl : LANG_OPTIONS lbl = some code)
    (htext : py_strip (r.getD "") ≠ "")
    (ht : t (py_strip (r.getD "")) code = Except.ok tr) :
    transcribe_button_handler w t fs s (some file) ms lbl ts =
      ⟨save_translation
          (writeFile (writeFile fs (os_path_join temp_upload_folder file.name) file.content)
            (os_path_join (create_output_folder file.name ts) "transcription.txt")
            (py_strip (r.getD "")))
          (create_output_folder file.name ts) lbl (py_strip tr),
        { transcribe_success_reset s (py_strip (r.getD "")) (create_output_folder file.name ts) with
            last_translation := py_strip tr
            last_language_label := lbl
            last_language_code := some code
            translation_area := py_strip tr },
        []⟩ := by
  simp only [transcribe_button_handler, hw, hl, htext, ht, if_neg, if_false]

/-! Branch equations of retranslate_from_state: one per exit path. -/

theorem retr_eq_guard (t fs s lbl)
    (h : s.has_results = false ∨ py_strip s.last_transcription = "") :
    retranslate_from_state t fs s lbl =
      (fs, { s with translation_error := ""
                    last_translation := ""
                    last_language_label := "" }) := by
  simp only [retranslate_from_state, if_pos h]

theorem retr_eq_none (t fs s lbl)
    (hres : s.has_results = true)
    (htr : py_strip s.last_transcription ≠ "")
    (hl : LANG_OPTIONS lbl = none) :
    retranslate_from_state t fs s lbl =
      (fs, { s with translation_error := ""
                    last_translation := ""
                    last_language_label := ""
                    translation_area := "" }) := by
  simp only [retranslate_from_state, hres, hl, htr]
  simp

theorem retr_eq_ok (t fs s lbl code tr)
    (hres : s.has_results = true)
    (htr : py_strip s.last_transcription ≠ "")
    (hl : LANG_OPTIONS lbl = some code)
    (ht : t (py_strip s.last_transcription) code = Except.ok tr) :
    retranslate_from_state t fs s lbl =
      (save_translation fs (retranslate_output_folder s) lbl (py_strip tr),
        { s with translation_error := ""
                 last_translation := py_strip tr
                 last_language_label := lbl
                 last_language_code := some code
                 translation_area := py_strip tr }) := by
  simp only [retranslate_from_state, hres, hl, htr, ht]
  simp [retranslate_output_folder]

theorem retr_eq_err (t fs s lbl code e)
    (hres : s.has_results = true)
    (htr : py_strip s.last_transcription ≠ "")
    (hl : LANG_OPTIONS lbl = some code)
    (ht : t (py_strip s.last_transcription) code = Except.error e) :
    retranslate_from_state t fs s lbl =
      (fs, { s with translation_error := e
                    last_translation := ""
                    last_language_label := ""
                    translation_area := "" }) := by
  simp only [retranslate_from_state, hres, hl, htr, ht]
  simp

/-! Helper lemmas for the language-code normalizer. -/

theorem startswith3 (p s : String) (a₁ a₂ a₃ b₁ b₂ b₃ : Char) (rest : List Char)
    (hp : p.data = [a₁, a₂, a₃]) (hs : s.data = b₁ :: b₂ :: b₃ :: rest) :
    py_startswith s p = (a₁ == b₁ && (a₂ == b₂ && a₃ == b₃)) := by
  simp [py_startswith, hp, hs, List.isPrefixOf]

theorem tts_strip_pt (region : String) :
    tts_lang_from_googletrans_code (some ("pt-" ++ region)) = "pt" := by
  have hdat : ("pt-" ++ region).data = 'p' :: 't' :: '-' :: region.data := by
    rw [String.data_append, show ("pt-" : String).data = ['p', 't', '-'] from rfl]
    rfl
  have hlow : (py_lower ("pt-" ++ region)).data
      = 'p' :: 't' :: '-' :: region.data.map lowerChar := by
    simp [py_lower, hdat, show lowerChar 'p' = 'p' by decide,
      show lowerChar 't' = 't' by decide, show lowerChar '-' = '-' by decide]
  have hne : ("pt-" ++ region) ≠ "" := ne_empty_of_head hdat
  have hz1 : py_lower ("pt-" ++ region) ≠ "zh-cn" :=
    ne_of_data_head hlow (by rfl) (by decide)
  have hz2 : py_lower ("pt-" ++ region) ≠ "zh-tw" :=
    ne_of_data_head hlow (by rfl) (by decide)
  have hsw : py_startswith (py_lower ("pt-" ++ region)) "pt-" = true := by
    rw [startswith3 "pt-" _ 'p' 't' '-' 'p' 't' '-' _ rfl hlow]
    decide
  simp [tts_lang_from_googletrans_code, hne, hz1, hz2, hsw]

theorem tts_strip_en (region : String) :
    tts_lang_from_googletrans_code (some ("en-" ++ region)) = "en" := by
  have hdat : ("en-" ++ region).data = 'e' :: 'n' :: '-' :: region.data := by
    rw [String.data_append, show ("en-" : String).data = ['e', 'n', '-'] from rfl]
    rfl
  have hlow : (py_lower ("en-" ++ region)).data
      = 'e' :: 'n' :: '-' :: region.data.map lowerChar := by
    simp [py_lower, hdat, show lowerChar 'e' = 'e' by decide,
      show lowerChar 'n' = 'n' by decide, show lowerChar '-' = '-' by decide]
  have hne : ("en-" ++ region) ≠ "" := ne_empty_of_head hdat
  have hz1 : py_lower ("en-" ++ region) ≠ "zh-cn" :=
    ne_of_data_head hlow (by rfl) (by decide)
  have hz2 : py_lower ("en-" ++ region) ≠ "zh-tw" :=
    ne_of_data_head hlow (by rfl) (by decide)
  have hpt : py_startswith (py_lower ("en-" ++ region)) "pt-" = false := by
    rw [startswith3 "pt-" _ 'p' 't' '-' 'e' 'n' '-' _ rfl hlow]
    decide
  have hen : py_startswith (py_lower ("en-" ++ region)) "en-" = true := by
    rw [startswith3 "en-" _ 'e' 'n' '-' 'e' 'n' '-' _ rfl hlow]
    decide
  simp [tts_lang_from_googletrans_code, hne, hz1, hz2, hpt, hen]

theorem tts_strip_es (region : String) :
    tts_lang_from_googletrans_code (some ("es-" ++ region)) = "es" := by
  have hdat : ("es-" ++ region).data = 'e' :: 's' :: '-' :: region.data := by
    rw [String.data_append, show ("es-" : String).data = ['e', 's', '-'] from rfl]
    rfl
  have hlow : (py_lower ("es-" ++ region)).data
      = 'e' :: 's' :: '-' :: region.data.map lowerChar := by
    simp [py_lower, hdat, show lowerChar 'e' = 'e' by decide,
      show lowerChar 's' = 's' by decide, show lowerChar '-' = '-' by decide]
  have hne : ("es-" ++ region) ≠ "" := ne_empty_of_head hdat
  have hz1 : py_lower ("es-" ++ region) ≠ "zh-cn" :=
    ne_of_data_head hlow (by rfl) (by decide)
  have hz2 : py_lower ("es-" ++ region) ≠ "zh-tw" :=
    ne_of_data_head hlow (by rfl) (by decide)
  have hpt : py_startswith (py_lower ("es-" ++ region)) "pt-" = false := by
    rw [startswith3 "pt-" _ 'p' 't' '-' 'e' 's' '-' _ rfl hlow]
    decide
  have hen : py_startswith (py_lower ("es-" ++ region)) "en-" = false := by
    rw [startswith3 "en-" _ 'e' 'n' '-' 'e' 's' '-' _ rfl hlow]
    decide
  have hes : py_startswith (py_lower ("es-" ++ region)) "es-" = true := by
    rw [startswith3 "es-" _ 'e' 's' '-' 'e' 's' '-' _ rfl hlow]
    decide
  simp [tts_lang_from_googletrans_code, hne, hz1, hz2, hpt, hen, hes]

theorem tts_strip_fr (region : String) :
    tts_lang_from_googletrans_code (some ("fr-" ++ region)) = "fr" := by
  have hdat : ("fr-" ++ region).data = 'f' :: 'r' :: '-' :: region.data := by
    rw [String.data_append, show ("fr-" : String).data = ['f', 'r', '-'] from rfl]
    rfl
  have hlow : (py_lower ("fr-" ++ region)).data
      = 'f' :: 'r' :: '-' :: region.data.map lowerChar := by
    simp [py_lower, hdat, show lowerChar 'f' = 'f' by decide,
      show lowerChar 'r' = 'r' by decide, show lowerChar '-' = '-' by decide]
  have hne : ("fr-" ++ region) ≠ "" := ne_empty_of_head hdat
  have hz1 : py_lower ("fr-" ++ region) ≠ "zh-cn" :=
    ne_of_data_head hlow (by rfl) (by decide)
  have hz2 : py_lower ("fr-" ++ region) ≠ "zh-tw" :=
    ne_of_data_head hlow (by rfl) (by decide)
  have hpt : py_startswith (py_lower ("fr-" ++ region)) "pt-" = false := by
    rw [startswith3 "pt-" _ 'p' 't' '-' 'f' 'r' '-' _ rfl hlow]
    decide
  have hen : py_startswith (py_lower ("fr-" ++ region)) "en-" = false := by
    rw [startswith3 "en-" _ 'e' 'n' '-' 'f' 'r' '-' _ rfl hlow]
    decide
  have hes : py_startswith (py_lower ("fr-" ++ region)) "es-" = false := by
    rw [startswith3 "es-" _ 'e' 's' '-' 'f' 'r' '-' _ rfl hlow]
    decide
  have hfr : py_startswith (py_lower ("fr-" ++ region)) "fr-" = true := by
    rw [startswith3 "fr-" _ 'f' 'r' '-' 'f' 'r' '-' _ rfl hlow]
    decide
  simp [tts_lang_from_googletrans_code, hne, hz1, hz2, hpt, hen, hes, hfr]

theorem tts_strip_de (region : String) :
    tts_lang_from_googletrans_code (some ("de-" ++ region)) = "de" := by
  have hdat : ("de-" ++ region).data = 'd' :: 'e' :: '-' :: region.data := by
    rw [String.data_append, show ("de-" : String).data = ['d', 'e', '-'] from rfl]
    rfl
  have hlow : (py_lower ("de-" ++ region)).data
      = 'd' :: 'e' :: '-' :: region.data.map lowerChar := by
    simp [py_lower, hdat, show lowerChar 'd' = 'd' by decide,
      show lowerChar 'e' = 'e' by decide, show lowerChar '-' = '-' by decide]
  have hne : ("de-" ++ region) ≠ "" := ne_empty_of_head hdat
  have hz1 : py_lower ("de-" ++ region) ≠ "zh-cn" :=
    ne_of_data_head hlow (by rfl) (by decide)
  have hz2 : py_lower ("de-" ++ region) ≠ "zh-tw" :=
    ne_of_data_head hlow (by rfl) (by decide)
  have hpt : py_startswith (py_lower ("de-" ++ region)) "pt-" = false := by
    rw [startswith3 "pt-" _ 'p' 't' '-' 'd' 'e' '-' _ rfl hlow]
    decide
  have hen : py_startswith (py_lower ("de-" ++ region)) "en-" = false := by
    rw [startswith3 "en-" _ 'e' 'n' '-' 'd' 'e' '-' _ rfl hlow]
    decide
  have hes : py_startswith (py_lower ("de-" ++ region)) "es-" = false := by
    rw [startswith3 "es-" _ 'e' 's' '-' 'd' 'e' '-' _ rfl hlow]
    decide
  have hfr : py_startswith (py_lower ("de-" ++ region)) "fr-" = false := by
    rw [startswith3 "fr-" _ 'f' 'r' '-' 'd' 'e' '-' _ rfl hlow]
    decide
  have hde : py_startswith (py_lower ("de-" ++ region)) "de-" = true := by
    rw [startswith3 "de-" _ 'd' 'e' '-' 'd' 'e' '-' _ rfl hlow]
    decide
  simp [tts_lang_from_googletrans_code, hne, hz1, hz2, hpt, hen, hes, hfr, hde]

/-- Claim C6 counterexample: the claim says every code with no special rule
passes through unchanged, but the normalizer lowercases its input first, so
the code RU comes out as ru, not RU. -/
theorem c6_counterexample : tts_lang_from_googletrans_code (some "RU") ≠ "RU" := by
  decide

/-- Claim C6 (amended): the language-code normalizer is a pure total function
with: absent or empty input maps to en; zh-cn and zh-tw map to zh; pt-BR maps
to pt; region-qualified codes whose base is pt, en, es, fr or de are stripped
to the lowercase base; every other code is lowercased and then passed
through. -/
theorem c6_tts_normalizer_amended :
    tts_lang_from_googletrans_code none = "en" ∧
    tts_lang_from_googletrans_code (some "") = "en" ∧
    tts_lang_from_googletrans_code (some "zh-cn") = "zh" ∧
    tts_lang_from_googletrans_code (some "zh-tw") = "zh" ∧
    tts_lang_from_googletrans_code (some "pt-BR") = "pt" ∧
    tts_lang_from_googletrans_code (some "ru") = "ru" ∧
    (∀ region, tts_lang_from_googletrans_code (some ("pt-" ++ region)) = "pt") ∧
    (∀ region, tts_lang_from_googletrans_code (some ("en-" ++ region)) = "en") ∧
    (∀ region, tts_lang_from_googletrans_code (some ("es-" ++ region)) = "es") ∧
    (∀ region, tts_lang_from_googletrans_code (some ("fr-" ++ region)) = "fr") ∧
    (∀ region, tts_lang_from_googletrans_code (some ("de-" ++ region)) = "de") ∧
    (∀ c : String, c ≠ "" →
      py_lower c ≠ "zh-cn" → py_lower c ≠ "zh-tw" →
      py_startswith (py_lower c) "pt-" = false →
      py_startswith (py_lower c) "en-" = false →
      py_startswith (py_lower c) "es-" = false →
      py_startswith (py_lower c) "fr-" = false →
      py_startswith (py_lower c) "de-" = false →
      tts_lang_from_googletrans_code (some c) = py_lower c) := by
  refine ⟨by decide, by decide, by decide, by decide, by decide, by decide,
    tts_strip_pt, tts_strip_en, tts_strip_es, tts_strip_fr, tts_strip_de, ?_⟩
  intro c h0 hz1 hz2 h1 h2 h3 h4 h5
  simp [tts_lang_from_googletrans_code, h0, hz1, hz2, h1, h2, h3, h4, h5]

/-- Claim C6 witness: the passthrough case of the amended normalizer theorem
evaluated at the code tr. -/
theorem c6_witness : tts_lang_from_googletrans_code (some "tr") = py_lower "tr" :=
  c6_tts_normalizer_amended.2.2.2.2.2.2.2.2.2.2.2 "tr" (by decide) (by decide)
    (by decide) (by decide) (by decide) (by decide) (by decide) (by decide)

/-- Claim C7: when the transcription engine call fails, the whole session
state, and in particular the transcription fields transcription, hasResult
and outputFolder, is left unchanged, and the failure is surfaced as a
user-visible error message instead of crashing the run. -/
theorem c7_transcribe_engine_failure
    (w : String → String → Except String (Option String))
    (t : String → String → Except String String)
    (fs : FS) (s : SessionState) (file : UploadedFile) (ms lbl ts e : String)
    (hw : w ms (os_path_join temp_upload_folder file.name) = Except.error e) :
    (transcribe_button_handler w t fs s (some file) ms lbl ts).state = s ∧
    (transcribe_button_handler w t fs s (some file) ms lbl ts).state.last_transcription
      = s.last_transcription ∧
    (transcribe_button_handler w t fs s (some file) ms lbl ts).state.has_results
      = s.has_results ∧
    (transcribe_button_handler w t fs s (some file) ms lbl ts).state.last_output_folder
      = s.last_output_folder ∧
    (transcribe_button_handler w t fs s (some file) ms lbl ts).errors
      = ["An error occurred: " ++ e] ∧
    (transcribe_button_handler w t fs s (some file) ms lbl ts).errors ≠ [] := by
  rw [handler_eq_werr w t fs s file ms lbl ts e hw]
  exact ⟨rfl, rfl, rfl, rfl, rfl, by simp⟩

/-- Claim C7 witness: a concrete run in which the engine raises the message
bad audio leaves the fresh session state untouched. -/
theorem c7_witness :
    (transcribe_button_handler (fun _ _ => Except.error "bad audio")
      (fun _ _ => Except.ok "") [] initState (some ⟨"a.mp3", "B"⟩)
      "tiny" "Spanish" "T").state = initState := by
  have h := c7_transcribe_engine_failure (fun _ _ => Except.error "bad audio")
    (fun _ _ => Except.ok "") [] initState ⟨"a.mp3", "B"⟩ "tiny" "Spanish" "T"
    "bad audio" rfl
  exact h.1

/-- Claim C8: invoking the transcribe action with no audio file reports a
user-facing error, performs no engine call of any kind (the outcome does not
depend on either engine), mutates no session state field and leaves no file
written; hasResult stays false when it was false. -/
theorem c8_transcribe_without_file
    (w₁ w₂ : String → String → Except String (Option String))
    (t₁ t₂ : String → String → Except String String)
    (fs : FS) (s : SessionState) (ms lbl ts : String) :
    (transcribe_button_handler w₁ t₁ fs s none ms lbl ts).state = s ∧
    (transcribe_button_handler w₁ t₁ fs s none ms lbl ts).fs = fs ∧
    (transcribe_button_handler w₁ t₁ fs s none ms lbl ts).errors
      = ["Please upload an audio file."] ∧
    (s.has_results = false →
      (transcribe_button_handler w₁ t₁ fs s none ms lbl ts).state.has_results = false) ∧
    transcribe_button_handler w₁ t₁ fs s none ms lbl ts
      = transcribe_button_handler w₂ t₂ fs s none ms lbl ts :=
  ⟨rfl, rfl, rfl, fun h => h, rfl⟩

/-- Claim C8 witness: a concrete fresh session invocation without a file
keeps hasResult false. -/
theorem c8_witness :
    (transcribe_button_handler (fun _ _ => Except.ok none) (fun _ _ => Except.ok "")
      [] initState none "tiny" "None" "T").state.has_results = false := by
  have h := c8_transcribe_without_file (fun _ _ => Except.ok none)
    (fun _ _ => Except.ok none) (fun _ _ => Except.ok "") (fun _ _ => Except.ok "")
    [] initState "tiny" "None" "T"
  exact h.2.2.2.1 rfl

/-- Claim C9: the synthesis transition never mutates session state; empty (after
trimming) text yields a no-op warning with no engine call (the outcome does
not depend on the engine); an engine failure or an empty returned byte stream
yields a user-visible error. -/
theorem c9_speak_text_spec
    (tts₁ tts₂ : String → String → Except String (List Nat))
    (s : SessionState) (text lang lbl : String) :
    (speak_text tts₁ s text lang lbl).1 = s ∧
    (py_strip text = "" →
      (speak_text tts₁ s text lang lbl).2
        = SpeakOutcome.warn ("No " ++ lbl ++ " text to read.") ∧
      speak_text tts₁ s text lang lbl = speak_text tts₂ s text lang lbl) ∧
    (∀ e, py_strip text ≠ "" → tts₁ (py_strip text) lang = Except.error e →
      (speak_text tts₁ s text lang lbl).2
        = SpeakOutcome.errorMsg ("Text-to-speech failed (" ++ lbl ++ "): " ++ e)) ∧
    (py_strip text ≠ "" → tts₁ (py_strip text) lang = Except.ok [] →
      (speak_text tts₁ s text lang lbl).2
        = SpeakOutcome.errorMsg
            "TTS produced empty audio. This usually means the gTTS request failed.") := by
  refine ⟨?_, ?_, ?_, ?_⟩
  · by_cases hcond : text = "" ∨ py_strip text = ""
    · simp [speak_text, hcond]
    · rcases htts : tts₁ (py_strip text) lang with e | b
      · simp [speak_text, hcond, htts]
      · by_cases hb : b = [] <;> simp [speak_text, hcond, htts, hb]
  · intro h
    constructor
    · simp [speak_text, h]
    · simp [speak_text, h]
  · intro e h he
    have htx : text ≠ "" := fun hh => h (by rw [hh]; rfl)
    simp [speak_text, htx, h, he]
  · intro h he
    have htx : text ≠ "" := fun hh => h (by rw [hh]; rfl)
    simp [speak_text, htx, h, he]

/-- Claim C9 witness: whitespace-only transcription text yields the no-op
warning with an arbitrary engine. -/
theorem c9_witness :
    (speak_text (fun _ _ => Except.ok [1]) initState "   " "en" "transcription").2
      = SpeakOutcome.warn "No transcription text to read." := by
  have h := c9_speak_text_spec (fun _ _ => Except.ok [1]) (fun _ _ => Except.ok [1])
    initState "   " "en" "transcription"
  have h2 := (h.2.1 (by decide)).1
  simpa using h2

/-- Claim C1 counterexample: a successful transcription run whose recognized
text trims to empty, with Spanish already selected and a translation engine
returning X, ends with an empty translation and no translation file, because
the chained translation is skipped for empty text; the claim as stated
predicts translation X and an existing file. -/
theorem c1_counterexample :
    (transcribe_button_handler (fun _ _ => Except.ok (some "   "))
      (fun _ _ => Except.ok "X") [] initState (some ⟨"a.mp3", "B"⟩)
      "tiny" "Spanish" "T").errors = [] ∧
    (transcribe_button_handler (fun _ _ => Except.ok (some "   "))
      (fun _ _ => Except.ok "X") [] initState (some ⟨"a.mp3", "B"⟩)
      "tiny" "Spanish" "T").state.has_results = true ∧
    LANG_OPTIONS "Spanish" = some "es" ∧
    (transcribe_button_handler (fun _ _ => Except.ok (some "   "))
      (fun _ _ => Except.ok "X") [] initState (some ⟨"a.mp3", "B"⟩)
      "tiny" "Spanish" "T").state.last_translation ≠ py_strip "X" ∧
    fileLookup (transcribe_button_handler (fun _ _ => Except.ok (some "   "))
      (fun _ _ => Except.ok "X") [] initState (some ⟨"a.mp3", "B"⟩)
      "tiny" "Spanish" "T").fs
      "Results/a_T/Translations/Spanish_translation.txt" = none := by
  decide

/-- Claim C1 (amended): after a successful transcription run, hasResult is
true, transcription is the trimmed engine text, and translation is empty
unless a non-None language was selected AND the trimmed transcription is
non-empty, in which case translation is the trimmed translation-engine result
and the Translations file under the run folder holds that same text. -/
theorem c1_transcribe_success_amended
    (w : String → String → Except String (Option String))
    (t : String → String → Except String String)
    (fs : FS) (s : SessionState) (file : UploadedFile) (ms lbl ts : String)
    (r : Option String)
    (hw : w ms (os_path_join temp_upload_folder file.name) = Except.ok r)
    (hsucc : (transcribe_button_handler w t fs s (some file) ms lbl ts).errors = []) :
    (transcribe_button_handler w t fs s (some file) ms lbl ts).state.has_results = true ∧
    (transcribe_button_handler w t fs s (some file) ms lbl ts).state.last_transcription
      = py_strip (r.getD "") ∧
    (LANG_OPTIONS lbl = none →
      (transcribe_button_handler w t fs s (some file) ms lbl ts).state.last_translation = "") ∧
    (py_strip (r.getD "") = "" →
      (transcribe_button_handler w t fs s (some file) ms lbl ts).state.last_translation = "") ∧
    (∀ code, LANG_OPTIONS lbl = some code → py_strip (r.getD "") ≠ "" →
      ∃ tr, t (py_strip (r.getD "")) code = Except.ok tr ∧
        (transcribe_button_handler w t fs s (some file) ms lbl ts).state.last_translation
          = py_strip tr ∧
        fileLookup (transcribe_button_handler w t fs s (some file) ms lbl ts).fs
          (os_path_join (os_path_join (create_output_folder file.name ts) "Translations")
            (lbl ++ "_translation.txt")) = some (py_strip tr)) := by
  rcases hl : LANG_OPTIONS lbl with _ | code
  · rw [handler_eq_ok_none w t fs s file ms lbl ts r hw hl]
    exact ⟨rfl, rfl, fun _ => rfl, fun _ => rfl, fun code hc _ => absurd hc (by simp)⟩
  · by_cases htext : py_strip (r.getD "") = ""
    · rw [handler_eq_ok_empty w t fs s file ms lbl ts r code hw hl htext]
      exact ⟨rfl, rfl, fun _ => rfl, fun _ => rfl, fun code' _ htext' => absurd htext htext'⟩
    · cases ht : t (py_strip (r.getD "")) code with
      | error e =>
        rw [handler_eq_terr w t fs s file ms lbl ts r code e hw hl htext ht] at hsucc
        simp at hsucc
      | ok tr =>
        rw [handler_eq_tok w t fs s file ms lbl ts r code tr hw hl htext ht]
        refine ⟨rfl, rfl, fun hn => absurd hn (by simp), fun he => absurd he htext,
          fun code' hc _ => ?_⟩
        obtain rfl : code = code' := Option.some.inj hc
        refine ⟨tr, ht, rfl, ?_⟩
        simp only [save_translation]
        exact lookup_write_self _ _ _

/-- Claim C1 witness: a concrete successful run transcribing Hello world with
Spanish selected. -/
theorem c1_witness :
    (transcribe_button_handler (fun _ _ => Except.ok (some " Hello world "))
      (fun _ _ => Except.ok " Hola mundo ") [] initState (some ⟨"a.mp3", "B"⟩)
      "tiny" "Spanish" "T").state.has_results = true := by
  have h := c1_transcribe_success_amended (fun _ _ => Except.ok (some " Hello world "))
    (fun _ _ => Except.ok " Hola mundo ") [] initState ⟨"a.mp3", "B"⟩
    "tiny" "Spanish" "T" (some " Hello world ") rfl (by decide)
  exact h.1

/-- Claim C2 counterexample: a translation-engine failure during the
selector-change transition does not clear targetLanguageCode, contrary to the
claim: the previously selected code survives the failed attempt. -/
theorem c2_counterexample :
    (retranslate_from_state (fun _ _ => Except.error "boom") []
      { initState with
        has_results := true
        last_transcription := "hi"
        last_language_code := some "es" } "Spanish").2.last_language_code ≠ none := by
  decide

/-- Claim C2 (amended): a translation-engine failure leaves transcription
unchanged, clears translation and targetLanguageLabel, and leaves
targetLanguageCode unchanged (it is never cleared).  When triggered by the
language selector, translationError is set to the engine message; when
chained right after a fresh transcription, translationError stays empty and
the failure is surfaced only as a generic run error. -/
theorem c2_translation_failure_amended :
    (∀ (t : String → String → Except String String) (fs : FS) (s : SessionState)
        (lbl code e : String),
      s.has_results = true → py_strip s.last_transcription ≠ "" →
      LANG_OPTIONS lbl = some code →
      t (py_strip s.last_transcription) code = Except.error e →
      (retranslate_from_state t fs s lbl).2.last_transcription = s.last_transcription ∧
      (retranslate_from_state t fs s lbl).2.last_translation = "" ∧
      (retranslate_from_state t fs s lbl).2.last_language_label = "" ∧
      (retranslate_from_state t fs s lbl).2.last_language_code = s.last_language_code ∧
      (retranslate_from_state t fs s lbl).2.translation_error = e ∧
      (retranslate_from_state t fs s lbl).1 = fs) ∧
    (∀ (w : String → String → Except String (Option String))
        (t : String → String → Except String String)
        (fs : FS) (s : SessionState) (file : UploadedFile)
        (ms lbl ts : String) (r : Option String) (code e : String),
      w ms (os_path_join temp_upload_folder file.name) = Except.ok r →
      LANG_OPTIONS lbl = some code →
      py_strip (r.getD "") ≠ "" →
      t (py_strip (r.getD "")) code = Except.error e →
      (transcribe_button_handler w t fs s (some file) ms lbl ts).state.last_transcription
        = py_strip (r.getD "") ∧
      (transcribe_button_handler w t fs s (some file) ms lbl ts).state.last_translation = "" ∧
      (transcribe_button_handler w t fs s (some file) ms lbl ts).state.last_language_label
        = "" ∧
      (transcribe_button_handler w t fs s (some file) ms lbl ts).state.last_language_code
        = s.last_language_code ∧
      (transcribe_button_handler w t fs s (some file) ms lbl ts).state.translation_error
        = "" ∧
      (transcribe_button_handler w t fs s (some file) ms lbl ts).errors
        = ["An error occurred: " ++ e]) := by
  constructor
  · intro t fs s lbl code e hres htr hl ht
    rw [retr_eq_err t fs s lbl code e hres htr hl ht]
    exact ⟨rfl, rfl, rfl, rfl, rfl, rfl⟩
  · intro w t fs s file ms lbl ts r code e hw hl htext ht
    rw [handler_eq_terr w t fs s file ms lbl ts r code e hw hl htext ht]
    exact ⟨rfl, rfl, rfl, rfl, rfl, rfl⟩

/-- Claim C2 witness: a concrete failing retranslation records the message
boom in translationError. -/
theorem c2_witness :
    (retranslate_from_state (fun _ _ => Except.error "boom") []
      { initState with
        has_results := true
        last_transcription := "hi"
        last_language_code := some "es" } "Spanish").2.translation_error = "boom" := by
  have h := c2_translation_failure_amended.1 (fun _ _ => Except.error "boom") []
    { initState with
      has_results := true
      last_transcription := "hi"
      last_language_code := some "es" } "Spanish" "es" "boom" rfl (by decide) rfl rfl
  exact h.2.2.2.2.1

/-- Claim C3 counterexample: a successful transcription does not reset
targetLanguageCode to absent: a previously stored code survives the reset
block. -/
theorem c3_counterexample :
    (transcribe_button_handler (fun _ _ => Except.ok (some "hello"))
      (fun _ _ => Except.ok "X") [] { initState with last_language_code := some "fr" }
      (some ⟨"a.mp3", "B"⟩) "tiny" "None" "T").state.last_language_code ≠ none := by
  decide

/-- Claim C3 (amended): on transcription success the state is first rewritten
to the reset state, which clears translation, targetLanguageLabel,
translationError (and the translation widget area) but leaves
targetLanguageCode unchanged; when no target language is selected the
transition ends exactly in that reset state. -/
theorem c3_transcribe_reset_amended :
    (∀ (s : SessionState) (text folder : String),
      (transcribe_success_reset s text folder).last_translation = "" ∧
      (transcribe_success_reset s text folder).last_language_label = "" ∧
      (transcribe_success_reset s text folder).translation_error = "" ∧
      (transcribe_success_reset s text folder).translation_area = "" ∧
      (transcribe_success_reset s text folder).last_language_code
        = s.last_language_code) ∧
    (∀ (w : String → String → Except String (Option String))
        (t : String → String → Except String String)
        (fs : FS) (s : SessionState) (file : UploadedFile)
        (ms lbl ts : String) (r : Option String),
      w ms (os_path_join temp_upload_folder file.name) = Except.ok r →
      LANG_OPTIONS lbl = none →
      (transcribe_button_handler w t fs s (some file) ms lbl ts).state
        = transcribe_success_reset s (py_strip (r.getD ""))
            (create_output_folder file.name ts)) := by
  constructor
  · exact fun s text folder => ⟨rfl, rfl, rfl, rfl, rfl⟩
  · intro w t fs s file ms lbl ts r hw hl
    rw [handler_eq_ok_none w t fs s file ms lbl ts r hw hl]

/-- Claim C3 witness: a concrete successful run with no language selected
ends exactly in the reset state. -/
theorem c3_witness :
    (transcribe_button_handler (fun _ _ => Except.ok (some "hello"))
      (fun _ _ => Except.ok "X") [] initState (some ⟨"a.mp3", "B"⟩)
      "tiny" "None" "T").state
      = transcribe_success_reset initState (py_strip "hello")
          (create_output_folder "a.mp3" "T") := by
  have h := c3_transcribe_reset_amended.2 (fun _ _ => Except.ok (some "hello"))
    (fun _ _ => Except.ok "X") [] initState ⟨"a.mp3", "B"⟩ "tiny" "None" "T"
    (some "hello") rfl rfl
  exact h

/-- Claim C4 counterexample: switching the selector to None with a stored
translation clears translation and targetLanguageLabel but does not clear
targetLanguageCode, contrary to the claim. -/
theorem c4_counterexample :
    (retranslate_from_state (fun _ _ => Except.ok "Hola") []
      { initState with
        has_results := true
        last_transcription := "hi"
        last_translation := "Hola"
        last_language_label := "Spanish"
        last_language_code := some "es" } "None").2.last_language_code ≠ none := by
  decide

/-- Claim C4 (amended): when no non-empty transcription exists or the
selected label resolves to the absent code, the translation transition clears
translation and targetLanguageLabel, leaves targetLanguageCode and
transcription unchanged, writes no file, and makes no translation-engine call
(the outcome does not depend on the engine). -/
theorem c4_translation_precondition_amended
    (t₁ t₂ : String → String → Except String String) (fs : FS) (s : SessionState)
    (lbl : String)
    (h : s.has_results = false ∨ py_strip s.last_transcription = ""
      ∨ LANG_OPTIONS lbl = none) :
    (retranslate_from_state t₁ fs s lbl).2.last_translation = "" ∧
    (retranslate_from_state t₁ fs s lbl).2.last_language_label = "" ∧
    (retranslate_from_state t₁ fs s lbl).2.last_language_code = s.last_language_code ∧
    (retranslate_from_state t₁ fs s lbl).2.last_transcription = s.last_transcription ∧
    (retranslate_from_state t₁ fs s lbl).1 = fs ∧
    retranslate_from_state t₁ fs s lbl = retranslate_from_state t₂ fs s lbl := by
  by_cases hg : s.has_results = false ∨ py_strip s.last_transcription = ""
  · rw [retr_eq_guard t₁ fs s lbl hg, retr_eq_guard t₂ fs s lbl hg]
    exact ⟨rfl, rfl, rfl, rfl, rfl, rfl⟩
  · obtain ⟨h1, h2⟩ := not_or.mp hg
    have hres : s.has_results = true := by
      revert h1
      cases s.has_results <;> simp
    have hl : LANG_OPTIONS lbl = none := by
      rcases h with h | h | h
      · exact absurd h h1
      · exact absurd h h2
      · exact h
    rw [retr_eq_none t₁ fs s lbl hres h2 hl, retr_eq_none t₂ fs s lbl hres h2 hl]
    exact ⟨rfl, rfl, rfl, rfl, rfl, rfl⟩

/-- Claim C4 witness: the concrete Spanish-to-None switch clears the
translation while the transcription survives. -/
theorem c4_witness :
    (retranslate_from_state (fun _ _ => Except.ok "Hola") []
      { initState with
        has_results := true
        last_transcription := "hi"
        last_translation := "Hola"
        last_language_label := "Spanish"
        last_language_code := some "es" } "None").2.last_translation = "" := by
  have h := c4_translation_precondition_amended (fun _ _ => Except.ok "Hola")
    (fun _ _ => Except.error "x") []
    { initState with
      has_results := true
      last_transcription := "hi"
      last_translation := "Hola"
      last_language_label := "Spanish"
      last_language_code := some "es" } "None" (Or.inr (Or.inr rfl))
  exact h.1

/-- Claim C5 counterexample: after a transcription run (here one whose engine
call fails) the transient copy of the uploaded audio is still present in the
file system, so it is not deleted before the transition ends. -/
theorem c5_counterexample :
    fileLookup (transcribe_button_handler (fun _ _ => Except.error "bad audio")
      (fun _ _ => Except.ok "") [] initState (some ⟨"a.mp3", "BYTES"⟩)
      "tiny" "None" "T").fs (os_path_join temp_upload_folder "a.mp3")
      = some "BYTES" := by
  decide

/-- Claim C5 (amended): the transient copy of the uploaded audio file is
written under the temporary upload folder and never deleted: on every exit
path of the transcription transition, success and failure alike, the file is
still present with the uploaded content when the transition ends. -/
theorem c5_temp_file_never_deleted
    (w : String → String → Except String (Option String))
    (t : String → String → Except String String)
    (fs : FS) (s : SessionState) (file : UploadedFile) (ms lbl ts : String) :
    fileLookup (transcribe_button_handler w t fs s (some file) ms lbl ts).fs
      (os_path_join temp_upload_folder file.name) = some file.content := by
  obtain ⟨lt, hT⟩ := temp_path_head file.name
  obtain ⟨lr, hR⟩ := create_output_folder_head file.name ts
  obtain ⟨l1, h1⟩ := join_head (create_output_folder file.name ts) "transcription.txt" 'R' lr hR
  have ne1 : os_path_join (create_output_folder file.name ts) "transcription.txt"
      ≠ os_path_join temp_upload_folder file.name := ne_of_data_head h1 hT (by decide)
  obtain ⟨l2, h2⟩ := join_head (create_output_folder file.name ts) "Translations" 'R' lr hR
  obtain ⟨l3, h3⟩ := join_head (os_path_join (create_output_folder file.name ts) "Translations")
    (lbl ++ "_translation.txt") 'R' l2 h2
  have ne2 : os_path_join (os_path_join (create_output_folder file.name ts) "Translations")
      (lbl ++ "_translation.txt") ≠ os_path_join temp_upload_folder file.name :=
    ne_of_data_head h3 hT (by decide)
  cases hw : w ms (os_path_join temp_upload_folder file.name) with
  | error e =>
    rw [handler_eq_werr w t fs s file ms lbl ts e hw]
    exact lookup_write_self fs _ _
  | ok r =>
    rcases hl : LANG_OPTIONS lbl with _ | code
    · rw [handler_eq_ok_none w t fs s file ms lbl ts r hw hl]
      show fileLookup (writeFile (writeFile fs _ _) _ _) _ = _
      rw [lookup_write_ne _ _ _ _ ne1]
      exact lookup_write_self fs _ _
    · by_cases htext : py_strip (r.getD "") = ""
      · rw [handler_eq_ok_empty w t fs s file ms lbl ts r code hw hl htext]
        show fileLookup (writeFile (writeFile fs _ _) _ _) _ = _
        rw [lookup_write_ne _ _ _ _ ne1]
        exact lookup_write_self fs _ _
      · cases ht : t (py_strip (r.getD "")) code with
        | error e =>
          rw [handler_eq_terr w t fs s file ms lbl ts r code e hw hl htext ht]
          show fileLookup (writeFile (writeFile fs _ _) _ _) _ = _
          rw [lookup_write_ne _ _ _ _ ne1]
          exact lookup_write_self fs _ _
        | ok tr =>
          rw [handler_eq_tok w t fs s file ms lbl ts r code tr hw hl htext ht]
          show fileLookup (save_translation (writeFile (writeFile fs _ _) _ _) _ _ _) _ = _
          simp only [save_translation]
          rw [lookup_write_ne _ _ _ _ ne2, lookup_write_ne _ _ _ _ ne1]
          exact lookup_write_self fs _ _

/-- The synthesis transition returns the session state unchanged. -/
theorem speak_text_state (tts : String → String → Except String (List Nat))
    (s : SessionState) (text lang lbl : String) :
    (speak_text tts s text lang lbl).1 = s := by
  by_cases hcond : text = "" ∨ py_strip text = ""
  · simp [speak_text, hcond]
  · rcases htts : tts (py_strip text) lang with e | b
    · simp [speak_text, hcond, htts]
    · by_cases hb : b = [] <;> simp [speak_text, hcond, htts, hb]

/-- retranslate_from_state never changes hasResult or outputFolder. -/
theorem retr_state_preserves (t : String → String → Except String String)
    (fs : FS) (s : SessionState) (lbl : String) :
    (retranslate_from_state t fs s lbl).2.has_results = s.has_results ∧
    (retranslate_from_state t fs s lbl).2.last_output_folder = s.last_output_folder := by
  by_cases hg : s.has_results = false ∨ py_strip s.last_transcription = ""
  · rw [retr_eq_guard t fs s lbl hg]
    exact ⟨rfl, rfl⟩
  · obtain ⟨h1, h2⟩ := not_or.mp hg
    have hres : s.has_results = true := by
      revert h1
      cases s.has_results <;> simp
    rcases hl : LANG_OPTIONS lbl with _ | code
    · rw [retr_eq_none t fs s lbl hres h2 hl]
      exact ⟨rfl, rfl⟩
    · cases ht : t (py_strip s.last_transcription) code with
      | ok tr =>
        rw [retr_eq_ok t fs s lbl code tr hres h2 hl ht]
        exact ⟨rfl, rfl⟩
      | error e =>
        rw [retr_eq_err t fs s lbl code e hres h2 hl ht]
        exact ⟨rfl, rfl⟩

/-- The display sync never changes hasResult or outputFolder. -/
theorem render_sync_preserves (s : SessionState) :
    (render_sync s).has_results = s.has_results ∧
    (render_sync s).last_output_folder = s.last_output_folder := by
  by_cases h : s.has_results = true <;>
    by_cases h2 : s.last_translation = "" <;>
      simp [render_sync, h, h2]

/-- The transcription transition preserves the folder invariant: whenever it
sets hasResult it also sets outputFolder to a freshly created path. -/
theorem handler_preserves_inv
    (w : String → String → Except String (Option String))
    (t : String → String → Except String String)
    (fs : FS) (s : SessionState) (u : Option UploadedFile) (ms lbl ts : String)
    (ih : s.has_results = true → s.last_output_folder ≠ "") :
    (transcribe_button_handler w t fs s u ms lbl ts).state.has_results = true →
    (transcribe_button_handler w t fs s u ms lbl ts).state.last_output_folder ≠ "" := by
  cases u with
  | none => exact fun h => ih h
  | some file =>
    cases hw : w ms (os_path_join temp_upload_folder file.name) with
    | error e =>
      rw [handler_eq_werr w t fs s file ms lbl ts e hw]
      exact fun h => ih h
    | ok r =>
      rcases hl : LANG_OPTIONS lbl with _ | code
      · rw [handler_eq_ok_none w t fs s file ms lbl ts r hw hl]
        exact fun _ => create_output_folder_ne_empty file.name ts
      · by_cases htext : py_strip (r.getD "") = ""
        · rw [handler_eq_ok_empty w t fs s file ms lbl ts r code hw hl htext]
          exact fun _ => create_output_folder_ne_empty file.name ts
        · cases ht : t (py_strip (r.getD "")) code with
          | error e =>
            rw [handler_eq_terr w t fs s file ms lbl ts r code e hw hl htext ht]
            exact fun _ => create_output_folder_ne_empty file.name ts
          | ok tr =>
            rw [handler_eq_tok w t fs s file ms lbl ts r code tr hw hl htext ht]
            exact fun _ => create_output_folder_ne_empty file.name ts

/-- In every reachable session state, hasResult implies a non-empty
outputFolder. -/
theorem reachable_inv (s : SessionState) (h : Reachable s) :
    s.has_results = true → s.last_output_folder ≠ "" := by
  induction h with
  | init => exact fun hh => absurd hh (by decide)
  | transcribe w t fs s u ms lbl ts hr ih =>
    exact handler_preserves_inv w t fs s u ms lbl ts ih
  | retranslate t fs s lbl hr ih =>
    intro hh
    have hp := retr_state_preserves t fs s lbl
    rw [hp.2]
    exact ih (by rw [← hp.1]; exact hh)
  | render s hr ih =>
    intro hh
    have hp := render_sync_preserves s
    rw [hp.2]
    exact ih (by rw [← hp.1]; exact hh)
  | speak tts s text lang lbl hr ih =>
    intro hh
    rw [speak_text_state tts s text lang lbl]
    exact ih (by rw [← speak_text_state tts s text lang lbl]; exact hh)

/-- Claim C10: in every reachable state with hasResult true, outputFolder is
non-empty, so the translation transition fallback to the results root
directory is never taken: the folder it uses is always the stored
outputFolder. -/
theorem c10_output_folder_invariant (s : SessionState) (h : Reachable s)
    (hr : s.has_results = true) :
    s.last_output_folder ≠ "" ∧ retranslate_output_folder s = s.last_output_folder := by
  have hne := reachable_inv s h hr
  exact ⟨hne, by simp [retranslate_output_folder, hne]⟩

/-- Claim C10 witness: the state reached by one concrete successful
transcription from a fresh session satisfies the invariant. -/
theorem c10_witness :
    (transcribe_button_handler (fun _ _ => Except.ok (some "hello"))
      (fun _ _ => Except.ok "X") [] initState (some ⟨"a.mp3", "B"⟩)
      "tiny" "None" "T").state.last_output_folder ≠ "" := by
  have hreach : Reachable (transcribe_button_handler (fun _ _ => Except.ok (some "hello"))
      (fun _ _ => Except.ok "X") [] initState (some ⟨"a.mp3", "B"⟩)
      "tiny" "None" "T").state :=
    Reachable.transcribe _ _ _ _ _ _ _ _ Reachable.init
  exact (c10_output_folder_invariant _ hreach (by decide)).1

end WhisperApp
